import Mathlib

/-!
Shallow embedding of `src/core-js-dates-tasks.js`, a flat library of pure
date/time utility functions, together with theorems settling the frozen
claims about its specification.

Modelling conventions:
* An instant is its millisecond timestamp, an integer.
* A calendar day is its epoch-day number (days since 1970-01-01);
  the weekday of epoch day `n` is `(n + 4) % 7` (day 0 was a Thursday),
  with 0 = Sunday through 6 = Saturday as in the JS `getDay()` method.
* Per the specification, local time is identified with UTC throughout.
* JS number division on timestamps is modelled over `ℚ`, so non-integer
  results are represented exactly.
* A JS function that can leave its result `undefined` is `Option`-valued;
  a function that throws is `Except`-valued.
* JS remainder tests of the form `x % k === 0` agree with the `% k = 0`
  tests used here for every integer `x`, because both vanish exactly when
  `k` divides `x`, so the sign convention of `%` is immaterial.
-/

/-- Conversion from a proleptic Gregorian calendar date to its epoch-day
number (days since 1970-01-01), the standard era-based civil-calendar
algorithm, with floor division throughout.  This models the calendar
arithmetic the JS `Date` object performs internally. -/
def daysFromCivil (y m d : ℤ) : ℤ :=
  let ys := if m ≤ 2 then y - 1 else y
  let era := ys / 400
  let yoe := ys - era * 400
  let mp := (m + 9) % 12
  let doy := (153 * mp + 2) / 5 + d - 1
  let doe := yoe * 365 + yoe / 4 - yoe / 100 + doy
  era * 146097 + doe - 719468

/-- The epoch-day number of `new Date(y, 0, 0)`, i.e. December 31 of the
preceding year (day zero of January of year `y`). -/
def jan0 (y : ℤ) : ℤ := daysFromCivil y 1 1 - 1

/-- Weekday (JS `getDay()` convention, 0 = Sunday through 6 = Saturday)
of the epoch-day number `d`. 1970-01-01 (day 0) was a Thursday, index 4. -/
def weekday (d : ℤ) : ℤ := (d + 4) % 7

/-- The day offset added by the `switch` statement of `getNextFriday` on
the current weekday `w`; its `default` branch leaves the offset variable
holding the weekday itself. -/
def nextFridayShift (w : ℤ) : ℤ :=
  if w = 0 then 5
  else if w = 1 then 4
  else if w = 2 then 3
  else if w = 3 then 2
  else if w = 4 then 1
  else if w = 5 then 7
  else if w = 6 then 6
  else w

/-- `getNextFriday`: adds the switched-on offset to the date, via
`data.setDate(data.getDate() + currData)`, at epoch-day granularity. -/
def getNextFriday (d : ℤ) : ℤ := d + nextFridayShift (weekday d)

/-- `getCountDaysInMonth(month, year)`: a hard-coded special case for
February 2024, otherwise a `switch` on the month whose `default` branch
leaves the result variable `undefined` (modelled as `none`). -/
def getCountDaysInMonth (month year : ℤ) : Option ℤ :=
  if year = 2024 ∧ month = 2 then some 29
  else if month = 1 then some 31
  else if month = 2 then some 28
  else if month = 3 then some 31
  else if month = 4 then some 30
  else if month = 5 then some 31
  else if month = 6 then some 30
  else if month = 7 then some 31
  else if month = 8 then some 31
  else if month = 9 then some 30
  else if month = 10 then some 31
  else if month = 11 then some 30
  else if month = 12 then some 31
  else none

/-- `getCountDaysOnPeriod(dateStart, dateEnd)` on the two parsed
millisecond timestamps: `(date2.getTime() - date1.getTime()) / 1000 /
3600 / 24 + 1`, JS number division modelled exactly over `ℚ`; the source
applies no rounding. -/
def getCountDaysOnPeriod (dateStart dateEnd : ℤ) : ℚ :=
  ((dateEnd : ℚ) - (dateStart : ℚ)) / 1000 / 3600 / 24 + 1

/-- `isDateInPeriod(date, period)` on parsed millisecond timestamps:
`date1.getTime() <= date3.getTime() && date2.getTime() >= date3.getTime()`. -/
def isDateInPeriod (date start₁ end₁ : ℤ) : Bool :=
  decide (start₁ ≤ date) && decide (end₁ ≥ date)

/-- The zero-padding applied by `formatDate` to minute and second
components below 10 (string concatenation of a leading zero). -/
def pad2 (n : ℤ) : String := if n < 10 then "0" ++ toString n else toString n

/-- `formatDate` on the extracted UTC calendar fields of the parsed date
(`month0` is the 0-based `getUTCMonth()` value): the 12-hour flag is
`AM` when the hour is below 12, hours strictly above 12 have 12
subtracted, minute and second are zero-padded, and the pieces are joined
into the template string of the source. -/
def formatDate (year month0 day hour minute second : ℤ) : String :=
  let getMonth := month0 + 1
  let pmAm := if hour < 12 then "AM" else "PM"
  let getHours := if hour > 12 then hour - 12 else hour
  toString getMonth ++ "/" ++ toString day ++ "/" ++ toString year ++ ", " ++
    toString getHours ++ ":" ++ pad2 minute ++ ":" ++ pad2 second ++ " " ++ pmAm

/-- `getWeekNumberByDate(date)` for a date at midnight of day
`daysFromCivil y m d` of year `y`: the source takes
`data = new Date(year, 0, 0)` (December 31 of the preceding year),
`differenceDays = (date - data) / (3600 * 1000 * 24)`, and returns
`Math.ceil((differenceDays + data.getDay()) / 7)`. -/
def getWeekNumberByDate (y m d : ℤ) : ℤ :=
  ⌈(((daysFromCivil y m d : ℚ) - (jan0 y : ℚ)) + (weekday (jan0 y) : ℚ)) / 7⌉

/-- `isLeapYear` on the extracted `getFullYear()` value: the two-branch
test of the source, `(y%4==0 && y%100!=0) || (y%100==0 && y%400==0)`. -/
def isLeapYear (year : ℤ) : Bool :=
  if year % 4 = 0 ∧ year % 100 ≠ 0 then true
  else if year % 100 = 0 ∧ year % 400 = 0 then true
  else false

/-- The Gregorian leap-year rule exactly as the specification words it:
divisible by 4 and (not divisible by 100, or divisible by 400). -/
def isLeapYearSpec (year : ℤ) : Prop :=
  4 ∣ year ∧ (¬(100 ∣ year) ∨ 400 ∣ year)

/-- `getNextFridayThe13th`: the stub body `throw new Error(...)`. -/
def getNextFridayThe13th (_date : ℤ) : Except String ℤ :=
  Except.error "Not implemented"

/-- `getWorkSchedule`: the stub body `throw new Error(...)`.  Input: the
period as a pair of instants and the two cycle counts. -/
def getWorkSchedule (_period : ℤ × ℤ) (_countWorkDays _countOffDays : ℤ) :
    Except String (List ℤ) :=
  Except.error "Not implemented"

/-! Sanity anchors for the calendar model, matching the worked examples
of the source documentation and of the specification. -/

example : daysFromCivil 1970 1 1 = 0 := by decide

example : daysFromCivil 2024 1 1 = 19723 := by decide

example : daysFromCivil 1969 12 31 = -1 := by decide

example : weekday 0 = 4 := by decide

example : getNextFriday (daysFromCivil 2024 2 3) = daysFromCivil 2024 2 9 := by decide

example : getNextFriday (daysFromCivil 2024 2 16) = daysFromCivil 2024 2 23 := by decide

example : formatDate 2024 1 1 15 0 0 = "2/1/2024, 3:00:00 PM" := by decide

example : getWeekNumberByDate 2024 1 3 = 1 := by
  norm_num [getWeekNumberByDate, daysFromCivil, jan0, weekday, Int.ceil_eq_iff]

example : getWeekNumberByDate 2024 1 31 = 5 := by
  norm_num [getWeekNumberByDate, daysFromCivil, jan0, weekday, Int.ceil_eq_iff]

example : getWeekNumberByDate 2024 2 23 = 8 := by
  norm_num [getWeekNumberByDate, daysFromCivil, jan0, weekday, Int.ceil_eq_iff]

example : isLeapYear 2024 = true ∧ isLeapYear 2022 = false ∧
    isLeapYear 2000 = true ∧ isLeapYear 1900 = false := by decide

/-- Helper: the era-based year prefix of `daysFromCivil` grows by at
least 365 days from one year to the next. -/
theorem yearLen (z : ℤ) :
    365 ≤ (z / 400 * 146097 + (z - z / 400 * 400) * 365
            + (z - z / 400 * 400) / 4 - (z - z / 400 * 400) / 100)
          - ((z - 1) / 400 * 146097 + ((z - 1) - (z - 1) / 400 * 400) * 365
            + ((z - 1) - (z - 1) / 400 * 400) / 4
            - ((z - 1) - (z - 1) / 400 * 400) / 100) := by
  omega

/-- Helper: January 1 is the earliest day of its year in the civil
calendar model. -/
theorem jan1_le (y m d : ℤ) (hm1 : 1 ≤ m) (hm2 : m ≤ 12) (hd : 1 ≤ d) :
    daysFromCivil y 1 1 ≤ daysFromCivil y m d := by
  unfold daysFromCivil
  simp only
  by_cases h : m ≤ 2
  · simp only [h, if_true, if_pos]
    interval_cases m <;> simp_all <;> omega
  · simp only [h, if_false]
    have := yearLen y
    interval_cases m <;> omega

/-- C1: the claim asserts that `getCountDaysInMonth(2, y)` is 29 for
every leap year; the code hard-codes the single year 2024, so at the
leap year 2020 (which `isLeapYear` itself accepts) February still
yields 28. -/
theorem getCountDaysInMonth_feb2020 :
    isLeapYear 2020 = true ∧ getCountDaysInMonth 2 2020 = some 28 := by
  constructor <;> decide

/-- C2 (counterexample): at the concrete UTC midnight input
2024-02-01T00:05:07Z, `formatDate` renders the hour as `0`, not as `12`,
so the output differs from the claimed `12:mm:ss AM` shape. -/
theorem formatDate_midnight_cex :
    formatDate 2024 1 1 0 5 7 = "2/1/2024, 0:05:07 AM" ∧
    formatDate 2024 1 1 0 5 7 ≠ "2/1/2024, 12:05:07 AM" := by
  constructor <;> decide

/-- C2 (amended): for every input date whose UTC hour is 0, `formatDate`
displays the hour as the unpadded digit `0` with suffix `AM`, with
minute and second zero-padded by `pad2`. -/
theorem formatDate_midnight (y mo d mi s : ℤ) :
    formatDate y mo d 0 mi s =
      toString (mo + 1) ++ "/" ++ toString d ++ "/" ++ toString y ++ ", " ++
        "0" ++ ":" ++ pad2 mi ++ ":" ++ pad2 s ++ " " ++ "AM" := by
  unfold formatDate
  norm_num
  rw [show toString (0 : ℤ) = "0" from rfl]

/-- C3 (counterexample): for two instants 12 hours apart,
`getCountDaysOnPeriod` returns the fraction 3/2, not the integer
`floor((end - start) / day) + 1 = 1` the claim requires. -/
theorem getCountDaysOnPeriod_cex :
    getCountDaysOnPeriod 0 43200000 = 3 / 2 ∧
    getCountDaysOnPeriod 0 43200000 ≠ ((43200000 - 0) / 86400000 : ℤ) + 1 := by
  constructor <;> norm_num [getCountDaysOnPeriod]

/-- C3 (amended): `getCountDaysOnPeriod` is exactly
`(end - start) / msPerDay + 1` with no rounding; whenever the two
instants differ by a whole number of days this coincides with
`floor((end - start) / day) + 1`, and in particular two equal instants
give 1, not 0. -/
theorem getCountDaysOnPeriod_whole (s e : ℤ) (h : (86400000 : ℤ) ∣ e - s) :
    getCountDaysOnPeriod s e = ((e - s) / 86400000 : ℤ) + 1 ∧
    getCountDaysOnPeriod s s = 1 := by
  obtain ⟨k, hk⟩ := h
  constructor
  · unfold getCountDaysOnPeriod
    have he : (e : ℚ) - (s : ℚ) = 86400000 * (k : ℚ) := by
      have hc := congrArg (fun z : ℤ => (z : ℚ)) hk
      push_cast at hc
      linarith
    have hq : ((e - s) / 86400000 : ℤ) = k := by omega
    rw [hq, he]
    ring
  · unfold getCountDaysOnPeriod
    ring

/-- C3 (witness): a period of exactly one whole day, evaluated through
the amended theorem: the count is the integer 2, and a degenerate period
counts 1. -/
theorem getCountDaysOnPeriod_whole_witness :
    getCountDaysOnPeriod 0 86400000 = ((86400000 - 0) / 86400000 : ℤ) + 1 ∧
    getCountDaysOnPeriod 0 0 = 1 :=
  getCountDaysOnPeriod_whole 0 86400000 ⟨1, by decide⟩

/-- C4: `getNextFriday` lands on a Friday strictly after the input, at
most 6 days later when the input is not a Friday and exactly 7 days
later when it is, and no day strictly between the input and the result
is a Friday, so the result is the smallest Friday strictly after the
input. -/
theorem getNextFriday_spec (d : ℤ) :
    weekday (getNextFriday d) = 5 ∧
    d < getNextFriday d ∧
    (weekday d ≠ 5 → getNextFriday d ≤ d + 6) ∧
    (weekday d = 5 → getNextFriday d = d + 7) ∧
    (∀ x : ℤ, d < x → x < getNextFriday d → weekday x ≠ 5) := by
  have hw : weekday d = 0 ∨ weekday d = 1 ∨ weekday d = 2 ∨ weekday d = 3 ∨
      weekday d = 4 ∨ weekday d = 5 ∨ weekday d = 6 := by
    unfold weekday; omega
  rcases hw with h | h | h | h | h | h | h <;>
    rw [getNextFriday, h] <;>
    simp only [show nextFridayShift 0 = 5 from rfl, show nextFridayShift 1 = 4 from rfl,
        show nextFridayShift 2 = 3 from rfl, show nextFridayShift 3 = 2 from rfl,
        show nextFridayShift 4 = 1 from rfl, show nextFridayShift 5 = 7 from rfl,
        show nextFridayShift 6 = 6 from rfl] <;>
    refine ⟨?_, ?_, ?_, ?_, ?_⟩ <;>
    simp only [weekday] at h ⊢ <;>
    (intros; (first | omega | trivial))

/-- C4 (witness): the Saturday 2024-02-03 (epoch day 19756) is not a
Friday, and its next Friday is at most 6 days later, by the general
theorem. -/
theorem getNextFriday_spec_witness :
    weekday (getNextFriday 19756) = 5 ∧ getNextFriday 19756 ≤ 19756 + 6 :=
  ⟨(getNextFriday_spec 19756).1, (getNextFriday_spec 19756).2.2.1 (by decide)⟩

/-- C5: for every valid calendar date, `getWeekNumberByDate` is at
least 1, January 1 itself falls in week 1, and the result is the
ceiling of `(daysSinceJan0 + weekdayOfJan0) / 7`. -/
theorem getWeekNumberByDate_spec (y m d : ℤ) (hm1 : 1 ≤ m) (hm2 : m ≤ 12)
    (hd : 1 ≤ d) :
    1 ≤ getWeekNumberByDate y m d ∧
    getWeekNumberByDate y 1 1 = 1 ∧
    getWeekNumberByDate y m d =
      ⌈((daysFromCivil y m d - jan0 y + weekday (jan0 y) : ℤ) : ℚ) / 7⌉ := by
  refine ⟨?_, ?_, ?_⟩
  · unfold getWeekNumberByDate
    have hj := jan1_le y m d hm1 hm2 hd
    have h1 : (1 : ℤ) ≤ daysFromCivil y m d - jan0 y := by unfold jan0; omega
    have h2 : (0 : ℤ) ≤ weekday (jan0 y) := by
      unfold weekday; exact Int.emod_nonneg _ (by norm_num)
    have h1q : (1 : ℚ) ≤ (daysFromCivil y m d : ℚ) - (jan0 y : ℚ) := by
      exact_mod_cast h1
    have h2q : (0 : ℚ) ≤ (weekday (jan0 y) : ℚ) := by exact_mod_cast h2
    have hpos : (0 : ℚ) <
        ((daysFromCivil y m d : ℚ) - (jan0 y : ℚ) + (weekday (jan0 y) : ℚ)) / 7 := by
      positivity
    have := Int.ceil_pos.mpr hpos
    omega
  · unfold getWeekNumberByDate
    have hd1 : (daysFromCivil y 1 1 : ℚ) - (jan0 y : ℚ) = 1 := by
      unfold jan0; push_cast; ring
    rw [hd1]
    have hw1 : 0 ≤ weekday (jan0 y) := by
      unfold weekday; exact Int.emod_nonneg _ (by norm_num)
    have hw2 : weekday (jan0 y) < 7 := by
      unfold weekday; exact Int.emod_lt_of_pos _ (by norm_num)
    have hw1q : (0 : ℚ) ≤ (weekday (jan0 y) : ℚ) := by exact_mod_cast hw1
    have hw2q : (weekday (jan0 y) : ℚ) ≤ 6 := by
      exact_mod_cast (by omega : weekday (jan0 y) ≤ 6)
    rw [Int.ceil_eq_iff]
    constructor
    · push_cast
      rw [lt_div_iff₀ (by norm_num)]
      linarith
    · push_cast
      rw [div_le_one (by norm_num)]
      linarith
  · unfold getWeekNumberByDate
    congr 1
    push_cast
    ring

/-- C5 (witness): January 3, 2024 is a valid date and its week number is
at least 1, by the general theorem. -/
theorem getWeekNumberByDate_spec_witness :
    (1 : ℤ) ≤ 1 ∧ (1 : ℤ) ≤ 12 ∧ (1 : ℤ) ≤ 3 ∧
    1 ≤ getWeekNumberByDate 2024 1 3 :=
  ⟨by decide, by decide, by decide,
    (getWeekNumberByDate_spec 2024 1 3 (by decide) (by decide) (by decide)).1⟩

/-- C6: the two-branch leap-year test of the source is equivalent to the
Gregorian rule of the specification for every integer year. -/
theorem isLeapYear_iff (year : ℤ) : isLeapYear year = true ↔ isLeapYearSpec year := by
  unfold isLeapYear isLeapYearSpec
  split_ifs with h1 h2 <;> simp <;> omega

/-- C7: `isDateInPeriod` returns true exactly when the date lies in the
closed interval between the period boundaries, both endpoints included. -/
theorem isDateInPeriod_iff (date s e : ℤ) :
    isDateInPeriod date s e = true ↔ s ≤ date ∧ date ≤ e := by
  unfold isDateInPeriod
  simp [and_comm]

/-- C8: both stub operations fail with the `Not implemented` error on
every input and never return a value; being pure functions of their
inputs, they touch no state. -/
theorem stubs_not_implemented (d : ℤ) (p : ℤ × ℤ) (w o : ℤ) :
    getNextFridayThe13th d = Except.error "Not implemented" ∧
    getWorkSchedule p w o = Except.error "Not implemented" ∧
    (∀ v, getNextFridayThe13th d ≠ Except.ok v) ∧
    (∀ v, getWorkSchedule p w o ≠ Except.ok v) := by
  refine ⟨rfl, rfl, fun v h => ?_, fun v h => ?_⟩ <;>
    simp [getNextFridayThe13th, getWorkSchedule] at h

/-- C9: for every input date whose UTC hour is exactly 12, `formatDate`
keeps the hour as `12` (only hours strictly above 12 are reduced) and
flags it `PM` (12 is not below 12), so noon is never rendered as 0 or
as AM. -/
theorem formatDate_noon (y mo d mi s : ℤ) :
    formatDate y mo d 12 mi s =
      toString (mo + 1) ++ "/" ++ toString d ++ "/" ++ toString y ++ ", " ++
        "12" ++ ":" ++ pad2 mi ++ ":" ++ pad2 s ++ " " ++ "PM" := by
  unfold formatDate
  norm_num
  rw [show toString (12 : ℤ) = "12" from rfl]

/-- C10: for every month value outside 1 through 12, the `switch` of
`getCountDaysInMonth` falls through its empty `default` branch and the
function returns `undefined`, i.e. `none`, for every year. -/
theorem getCountDaysInMonth_none (month year : ℤ) (h : month < 1 ∨ 12 < month) :
    getCountDaysInMonth month year = none := by
  unfold getCountDaysInMonth
  rw [if_neg (by omega : ¬(year = 2024 ∧ month = 2)),
    if_neg (by omega : ¬month = 1), if_neg (by omega : ¬month = 2),
    if_neg (by omega : ¬month = 3), if_neg (by omega : ¬month = 4),
    if_neg (by omega : ¬month = 5), if_neg (by omega : ¬month = 6),
    if_neg (by omega : ¬month = 7), if_neg (by omega : ¬month = 8),
    if_neg (by omega : ¬month = 9), if_neg (by omega : ¬month = 10),
    if_neg (by omega : ¬month = 11), if_neg (by omega : ¬month = 12)]

/-- C10 (witness): month 0 is outside the range, and the function
returns `none` for it in the year 2024, by the general theorem. -/
theorem getCountDaysInMonth_none_witness :
    ((0 : ℤ) < 1 ∨ 12 < (0 : ℤ)) ∧ getCountDaysInMonth 0 2024 = none :=
  ⟨Or.inl (by decide), getCountDaysInMonth_none 0 2024 (Or.inl (by decide))⟩
